import Mathlib

/-!
Shallow embedding of the cache-and-consistency core of the PowerBI-Manager
repository (src/js/cache.js, src/js/config.js, src/js/utils.js, src/js/api.js
and the enhanced API module src/unnamed/part_000), together with theorems
that settle the specification claims about it.

Conventions used throughout:
* JavaScript `Map` objects are modelled as association lists
  (`List (String × α)`) with `lookupA` / `insertA`; `Map.set` replaces the
  binding for an existing key.
* JavaScript `Set` objects are modelled as duplicate-free `List String`
  (insertion order, `add` is a no-op on an existing member).
* `Date.now()` is passed explicitly as a `now : Nat` parameter.
* JavaScript falsiness of strings (undefined or empty) and numbers
  (undefined or 0) is modelled by `jsTruthy` / `jsTruthyNat`; an absent
  (undefined) string field is `none`.
* Network calls are modelled by explicit oracles (`String → Option _` for
  the reconciler fetch, response streams for the retry logic); UI rendering,
  console logging and alert calls are external collaborators and have no
  state in the model.
-/

namespace PowerBIManager

/-! ## Configuration constants (src/js/config.js, lines 10-31) -/

def CACHE_TTL : Nat := 300000

def BATCH_SIZE : Nat := 15

def RATE_LIMIT_DELAY : Nat := 100

def REFRESH_DEBOUNCE : Nat := 1000

/-! ## JavaScript-style helpers -/

/-- Truthiness of an optional string: `undefined` and the empty string are falsy. -/
def jsTruthy : Option String → Bool
  | none => false
  | some s => !(s == "")

/-- Truthiness of an optional number: `undefined` and `0` are falsy. -/
def jsTruthyNat : Option Nat → Bool
  | none => false
  | some n => !(n == 0)

/-- JavaScript `a || b` on optional strings. -/
def jsOr (a b : Option String) : Option String := if jsTruthy a then a else b

/-- JavaScript `a || b` on optional numbers. -/
def jsOrNat (a b : Option Nat) : Option Nat := if jsTruthyNat a then a else b

/-- Render an optional string; `undefined` is modelled as the empty string. -/
def jsStr (o : Option String) : String := o.getD ""

/-! ## Association-list model of JavaScript Map -/

def lookupA {α : Type} (m : List (String × α)) (k : String) : Option α :=
  (m.find? (fun p => p.1 == k)).map (fun p => p.2)

def insertA {α : Type} (m : List (String × α)) (k : String) (v : α) : List (String × α) :=
  m.filter (fun p => !(p.1 == k)) ++ [(k, v)]

theorem lookupA_insertA_self {α : Type} (m : List (String × α)) (k : String) (v : α) :
    lookupA (insertA m k v) k = some v := by
  induction m with
  | nil => simp [lookupA, insertA]
  | cons p t ih => by_cases h : p.1 == k <;> simp [lookupA, insertA, h, List.find?] at ih ⊢

theorem lookupA_insertA_ne {α : Type} (m : List (String × α)) (k k2 : String) (v : α)
    (h : k2 ≠ k) : lookupA (insertA m k v) k2 = lookupA m k2 := by
  have hbeq : (k == k2) = false := by
    simpa using fun hc => h hc.symm
  induction m with
  | nil => simp [lookupA, insertA, hbeq]
  | cons p t ih =>
    by_cases hp : p.1 == k
    · have hp2 : (p.1 == k2) = false := by
        have hk : p.1 = k := by simpa using hp
        subst hk
        exact hbeq
      simpa [lookupA, insertA, hp, hp2, List.find?] using ih
    · by_cases hq : p.1 == k2 <;> simp [lookupA, insertA, hp, hq, List.find?] at ih ⊢
      exact ih

/-! ## Data model: membership records (spec section 3; src/js/cache.js) -/

/-- A member of a workspace membership list, as stored in the cache
(field names follow the Power BI API payloads used by `cache.js`). -/
structure MembershipUser where
  identifier : String
  displayName : String
  emailAddress : String
  groupUserAccessRight : String
  principalType : String
  deriving DecidableEq, Repr

/-- The argument to `optimisticAddUser`: a user object coming from the UI,
whose fields may be absent (`undefined`). -/
structure UserInput where
  identifier : Option String
  displayName : Option String
  email : Option String
  principalType : Option String
  deriving DecidableEq, Repr

/-- The slice of `AppState` that the cache module reads and writes
(src/js/config.js lines 70-74). -/
structure CacheState where
  workspaceUserMap : List (String × List MembershipUser)
  workspaceCacheTTL : List (String × Nat)
  dirtyWorkspaces : List String
  knownUsers : List (String × MembershipUser)
  deriving DecidableEq, Repr

/-! ## Cache operations (src/js/cache.js) -/

/-- Embeds `Cache.isCacheExpired` (cache.js lines 13-16):
`const expiry = AppState.workspaceCacheTTL.get(workspaceId);
 return !expiry || expiry < Date.now();` -/
def isCacheExpired (st : CacheState) (now : Nat) (workspaceId : String) : Bool :=
  match lookupA st.workspaceCacheTTL workspaceId with
  | none => true
  | some expiry => expiry == 0 || decide (expiry < now)

/-- Embeds `Cache.setCacheWithTTL` (cache.js lines 23-26). -/
def setCacheWithTTL (st : CacheState) (now : Nat) (workspaceId : String)
    (users : List MembershipUser) : CacheState :=
  { st with
    workspaceUserMap := insertA st.workspaceUserMap workspaceId users
    workspaceCacheTTL := insertA st.workspaceCacheTTL workspaceId (now + CACHE_TTL) }

/-- The record built by `optimisticAddUser` (cache.js lines 36-42). -/
def mkOptimisticUser (user : UserInput) (role : String) : MembershipUser :=
  { identifier := jsStr (jsOr user.identifier user.email)
    displayName := jsStr (jsOr user.displayName user.email)
    emailAddress := jsStr (jsOr user.email user.identifier)
    groupUserAccessRight := role
    principalType := jsStr (jsOr user.principalType (some "User")) }

/-- Embeds `Cache.optimisticAddUser` (cache.js lines 34-48). -/
def optimisticAddUser (st : CacheState) (now : Nat) (workspaceId : String)
    (user : UserInput) (role : String) : CacheState :=
  let users := (lookupA st.workspaceUserMap workspaceId).getD []
  let newUser := mkOptimisticUser user role
  let st1 := setCacheWithTTL st now workspaceId (users ++ [newUser])
  { st1 with knownUsers := insertA st1.knownUsers newUser.identifier newUser }

/-- Embeds `Cache.optimisticRemoveUser` (cache.js lines 55-59). -/
def optimisticRemoveUser (st : CacheState) (now : Nat) (workspaceId : String)
    (userIdentifier : String) : CacheState :=
  let users := (lookupA st.workspaceUserMap workspaceId).getD []
  setCacheWithTTL st now workspaceId (users.filter (fun u => !(u.identifier == userIdentifier)))

/-- Replace the first element satisfying `p` (JavaScript `Array.find` followed
by an in-place mutation touches only the first match). -/
def updateFirst (p : MembershipUser → Bool) (f : MembershipUser → MembershipUser) :
    List MembershipUser → List MembershipUser
  | [] => []
  | u :: us => if p u then f u :: us else u :: updateFirst p f us

/-- Embeds `Cache.optimisticChangeRole` (cache.js lines 67-74). -/
def optimisticChangeRole (st : CacheState) (now : Nat) (workspaceId : String)
    (userIdentifier : String) (newRole : String) : CacheState :=
  let users := (lookupA st.workspaceUserMap workspaceId).getD []
  if ((users.find? (fun u => u.identifier == userIdentifier)).isSome) then
    setCacheWithTTL st now workspaceId
      (updateFirst (fun u => u.identifier == userIdentifier)
        (fun u => { u with groupUserAccessRight := newRole }) users)
  else st

/-- Embeds `Cache.markWorkspaceDirty` (cache.js lines 80-82): `Set.add` is idempotent. -/
def markWorkspaceDirty (st : CacheState) (workspaceId : String) : CacheState :=
  if st.dirtyWorkspaces.contains workspaceId then st
  else { st with dirtyWorkspaces := st.dirtyWorkspaces ++ [workspaceId] }

/-- Embeds `Cache.refreshSingleWorkspace` (cache.js lines 106-130), with the network
modelled by an oracle: `fetch ws = some users` is an `ok` response carrying
`users`; `fetch ws = none` covers a non-ok response and a thrown error, both
of which are only logged and leave the state untouched. The re-render of the
current workspace is UI work outside this model. -/
def refreshSingleWorkspace (fetch : String → Option (List MembershipUser))
    (st : CacheState) (now : Nat) (workspaceId : String) : CacheState :=
  match fetch workspaceId with
  | some users =>
    let st1 := setCacheWithTTL st now workspaceId users
    { st1 with knownUsers := users.foldl (fun m u => insertA m u.identifier u) st1.knownUsers }
  | none => st

/-- Embeds `Cache.refreshDirtyWorkspaces` (cache.js lines 87-100). Returns the new
state together with the list of workspace ids for which a reconciliation fetch
was issued (one `refreshSingleWorkspace` call per drained member; a failure
inside the loop is caught and only logged). -/
def refreshDirtyWorkspaces (fetch : String → Option (List MembershipUser))
    (st : CacheState) (now : Nat) : CacheState × List String :=
  if st.dirtyWorkspaces.length == 0 then (st, [])
  else
    let workspacesToRefresh := st.dirtyWorkspaces
    let st1 := { st with dirtyWorkspaces := [] }
    (workspacesToRefresh.foldl (fun acc wsId => refreshSingleWorkspace fetch acc now wsId) st1,
      workspacesToRefresh)

/-- The cache read used by the UI (src/unnamed/part_005 line 108):
`AppState.workspaceUserMap.has(id) && !Cache.isCacheExpired(id)` decides a
hit; on a hit the stored record list is used without any network call. -/
def cacheRead (st : CacheState) (now : Nat) (workspaceId : String) :
    Option (List MembershipUser) :=
  match lookupA st.workspaceUserMap workspaceId with
  | some users => if isCacheExpired st now workspaceId then none else some users
  | none => none

/-- A cache read is a hit when `cacheRead` returns records. -/
def cacheHit (st : CacheState) (now : Nat) (workspaceId : String) : Bool :=
  (cacheRead st now workspaceId).isSome

/-- The hit condition claimed by the specification (strict `expiresAt > now`):
a second definition following the words of the spec, for comparison with
`cacheHit`, which is translated from the code. -/
def specCacheHit (st : CacheState) (now : Nat) (workspaceId : String) : Bool :=
  (lookupA st.workspaceUserMap workspaceId).isSome &&
    (match lookupA st.workspaceCacheTTL workspaceId with
     | some e => decide (now < e)
     | none => false)

/-! ## Substring matching (JavaScript `String.includes`) -/

/-- Checks `pat.isPrefixOf` against every suffix of `hay`: Boolean substring test. -/
def listContainsSub (pat hay : List Char) : Bool :=
  (List.range (hay.length + 1)).any (fun i => pat.isPrefixOf (hay.drop i))

/-- Case-sensitive `s.includes(pat)`. -/
def strIncludes (s pat : String) : Bool := listContainsSub pat.data s.data

/-- Case-insensitive containment, as in `ActionGuard._isFatalError`. -/
def strIncludesLower (s pat : String) : Bool :=
  listContainsSub (pat.data.map Char.toLower) (s.data.map Char.toLower)

/-! ## Operation Serializer / Action Guard (src/js/utils.js lines 178-369) -/

/-- The slice of global state read by `ActionGuard.guard`,
`Diagnostics.checkStateConsistency` and `FatalError.trigger`. -/
structure GuardState where
  frozen : Bool
  operationInProgress : Bool
  accessToken : Option String
  tokenExpiry : Option Nat
  currentWorkspaceId : Option String
  isPowerBIAdmin : Bool
  allWorkspaces : List String
  currentView : String
  deriving DecidableEq, Repr

/-- The issues `Diagnostics.checkStateConsistency` can report
(utils.js lines 183-224); the issue strings are represented by tags.
The `AppState is undefined` issue cannot arise in the model. -/
inductive StateIssue where
  | tokenExpiryWithoutToken
  | workspaceNotInList
  | invalidCurrentView
  | adminViewWithoutAdmin
  | operationWithoutAuth
  deriving DecidableEq, Repr

/-- The critical-issue filter of `Diagnostics.assertValidState`
(utils.js lines 241-244): only `Invalid current view` (and the
unrepresentable `AppState is undefined`) are critical. -/
def issueIsCritical : StateIssue → Bool
  | .invalidCurrentView => true
  | _ => false

/-- Embeds `Diagnostics.checkStateConsistency` (utils.js lines 183-224). -/
def checkStateConsistency (st : GuardState) : List StateIssue :=
  (if st.tokenExpiry.isSome && !(jsTruthy st.accessToken) then [.tokenExpiryWithoutToken] else []) ++
  (if jsTruthy st.currentWorkspaceId && decide (0 < st.allWorkspaces.length) &&
      !(st.allWorkspaces.contains (jsStr st.currentWorkspaceId)) then [.workspaceNotInList] else []) ++
  (if !(["workspace", "user", "admin"].contains st.currentView) then [.invalidCurrentView] else []) ++
  (if st.currentView == "admin" && !st.isPowerBIAdmin then [.adminViewWithoutAdmin] else []) ++
  (if st.operationInProgress && !(jsTruthy st.accessToken) then [.operationWithoutAuth] else [])

/-- Embeds `FatalError.trigger` (utils.js lines 58-76): a one-way latch; request
cancellation, timer clearing and the overlay act on external collaborators. -/
def fatalTrigger (st : GuardState) : GuardState :=
  if st.frozen then st else { st with frozen := true }

/-- Embeds `Diagnostics.assertValidState` (utils.js lines 231-256): returns the
possibly-updated state and whether the action may proceed; non-critical
issues are only logged. -/
def assertValidState (st : GuardState) : GuardState × Bool :=
  if st.frozen then (st, false)
  else
    let issues := checkStateConsistency st
    if issues.isEmpty then (st, true)
    else if issues.any issueIsCritical then (fatalTrigger st, false)
    else (st, true)

/-- The fatal-pattern list of `ActionGuard._isFatalError` (utils.js lines 342-348). -/
def fatalPatterns : List String :=
  ["Maximum call stack size exceeded", "out of memory", "Script error",
   "Internal error", "too much recursion"]

/-- Embeds `ActionGuard._isFatalError` (utils.js lines 339-352), applied to the
message of a thrown error. -/
def isFatalErrorMessage (message : String) : Bool :=
  fatalPatterns.any (fun p => strIncludesLower message p)

/-- The options argument of `ActionGuard.guard` (defaults: `requireAuth = true`,
`requireWorkspace = false`, `requireAdmin = false`). -/
structure GuardOptions where
  requireAuth : Bool
  requireWorkspace : Bool
  requireAdmin : Bool
  deriving DecidableEq, Repr

/-- How a guarded invocation ended. -/
inductive GuardOutcome where
  | blockedFatal
  | blockedBusy
  | blockedAuth
  | blockedWorkspace
  | blockedAdmin
  | blockedInvalidState
  | completed
  | failedFatal
  | failedRethrown
  deriving DecidableEq, Repr

/-- Embeds `ActionGuard.guard` (utils.js lines 278-332). The wrapped action is a
state transformer that can throw (`some message`). The returned Boolean
records whether the wrapped action was executed. -/
def guard (st : GuardState) (opts : GuardOptions)
    (action : GuardState → GuardState × Option String) :
    GuardState × GuardOutcome × Bool :=
  if st.frozen then (st, .blockedFatal, false)
  else if st.operationInProgress then (st, .blockedBusy, false)
  else if opts.requireAuth && !(jsTruthy st.accessToken) then (st, .blockedAuth, false)
  else if opts.requireWorkspace && !(jsTruthy st.currentWorkspaceId) then
    (st, .blockedWorkspace, false)
  else if opts.requireAdmin && !st.isPowerBIAdmin then (st, .blockedAdmin, false)
  else
    match assertValidState st with
    | (st1, false) => (st1, .blockedInvalidState, false)
    | (st1, true) =>
      match action st1 with
      | (st2, none) => (st2, .completed, true)
      | (st2, some msg) =>
        if isFatalErrorMessage msg then (fatalTrigger st2, .failedFatal, true)
        else (st2, .failedRethrown, true)

/-! ## Error Classifier (src/js/utils.js, `ErrorHandler.mapError`, lines 451-578) -/

/-- An error-or-response input to `mapError`: either a plain string, or an
object with the fields the classifier inspects. `headers` carries the HTTP
response headers (such as `Retry-After`); `mapError` never reads them. -/
structure JsErrObj where
  name : Option String
  message : Option String
  status : Option Nat
  responseStatus : Option Nat
  headers : List (String × String)
  deriving DecidableEq, Repr

inductive ErrInput where
  | strErr (s : String)
  | objErr (e : JsErrObj)
  deriving DecidableEq, Repr

/-- The result of `ErrorHandler.mapError`: a type tag, a user-facing message,
a retryability flag and a suggested action. These four fields are the entire
classification result. Message texts with apostrophes are paraphrased
without them. -/
structure MappedError where
  type : String
  message : String
  retryable : Bool
  action : Option String
  deriving DecidableEq, Repr

def errInputName : ErrInput → Option String
  | .strErr _ => none
  | .objErr e => e.name

def errInputMessage : ErrInput → Option String
  | .strErr _ => none
  | .objErr e => e.message

/-- Computes `err?.status || err?.response?.status` (utils.js line 483). -/
def errInputStatus : ErrInput → Option Nat
  | .strErr _ => none
  | .objErr e => jsOrNat e.status e.responseStatus

/-- The tail of `ErrorHandler.mapError` after the status switch
(utils.js lines 535-577): the string-input case, the message-substring
checks, and the generic default. -/
def mapErrorFallback : ErrInput → MappedError
  | .strErr s => ⟨"unknown", s, false, none⟩
  | .objErr e =>
    if jsTruthy e.message then
      if strIncludes (jsStr e.message) "expired" then
        ⟨"auth_expired", "Session expired. Please sign in again.", false, some "login"⟩
      else if strIncludes (jsStr e.message) "timeout" then
        ⟨"timeout", "Request timed out. Please try again.", true, some "retry"⟩
      else ⟨"unknown", jsStr e.message, false, none⟩
    else ⟨"unknown", "Something went wrong. Please try again.", true, some "retry"⟩

/-- Embeds `ErrorHandler.mapError` (utils.js lines 451-578); `online` models
`navigator.onLine`. -/
def mapError (online : Bool) (err : ErrInput) : MappedError :=
  if errInputName err == some "AbortError" then
    ⟨"timeout", "Request timed out. Please check your connection and try again.", true, some "retry"⟩
  else if errInputName err == some "TypeError" &&
      strIncludes (jsStr (errInputMessage err)) "fetch" then
    ⟨"network", "Network error. Please check your internet connection.", true, some "retry"⟩
  else if !online then
    ⟨"network", "You appear to be offline. Please check your connection.", true, some "retry"⟩
  else if jsTruthyNat (errInputStatus err) then
    match (errInputStatus err).getD 0 with
    | 401 => ⟨"auth_expired", "Session expired. Please sign in again.", false, some "login"⟩
    | 403 => ⟨"permission", "You do not have permission for this action.", false, none⟩
    | 404 => ⟨"not_found", "The requested resource was not found.", false, none⟩
    | 409 => ⟨"conflict",
        (if jsTruthy (errInputMessage err) then jsStr (errInputMessage err)
         else "This item already exists."), false, none⟩
    | 429 => ⟨"rate_limit", "Too many requests. Please wait a moment and try again.", true, some "wait"⟩
    | 500 => ⟨"server", "Power BI service is temporarily unavailable. Please try again later.", true, some "retry"⟩
    | 502 => ⟨"server", "Power BI service is temporarily unavailable. Please try again later.", true, some "retry"⟩
    | 503 => ⟨"server", "Power BI service is temporarily unavailable. Please try again later.", true, some "retry"⟩
    | 504 => ⟨"server", "Power BI service is temporarily unavailable. Please try again later.", true, some "retry"⟩
    | _ => mapErrorFallback err
  else mapErrorFallback err

/-! ## HTTP retry logic (`callWithErrorHandling`) -/

/-- The parts of an HTTP response inspected by `callWithErrorHandling`:
the status code, the parsed `Retry-After` header (`none` when absent or
unparseable) and the error message in a JSON body, if any. -/
structure HttpResponse where
  status : Nat
  retryAfter : Option Nat
  bodyErrorMessage : Option String
  deriving DecidableEq, Repr

/-- Computes `response.ok`: status in the 200-299 range. -/
def responseOk (r : HttpResponse) : Bool := decide (200 ≤ r.status) && decide (r.status < 300)

/-- How a `callWithErrorHandling` invocation terminates: a returned response
or a thrown error with the given message. -/
inductive CallOutcome where
  | success (status : Nat)
  | failure (message : String)
  deriving DecidableEq, Repr

/-- Embeds `const MAX_RETRIES = 3` of src/unnamed/part_000 line 119. -/
def MAX_RETRIES : Nat := 3

/-- The wait computed on a 429 (src/unnamed/part_000 line 157):
`parseInt` of the Retry-After header, with fallback `5 * Math.pow(2, retryCount)`,
in seconds. A missing or zero header falls back to exponential backoff. -/
def retryAfterSeconds (header : Option Nat) (retryCount : Nat) : Nat :=
  match header with
  | some v => if v == 0 then 5 * 2 ^ retryCount else v
  | none => 5 * 2 ^ retryCount

namespace ApiRetry

/-- Embeds `API.callWithErrorHandling` of src/unnamed/part_000 (lines 118-204).
`server n` is the response the network produces for attempt number `n`
(attempt numbers coincide with `retryCount`, which both retrying branches
increment). Sleeping (`retryAfterSeconds`, exponential backoff) only delays
execution and is not part of the returned outcome. -/
def callWithErrorHandling (server : Nat → HttpResponse) (retryCount : Nat) : CallOutcome :=
  let resp := server retryCount
  if resp.status == 401 then .failure "Authentication failed"
  else if resp.status == 403 then .failure "Permission denied"
  else if resp.status == 404 then .failure "Resource not found"
  else if resp.status == 409 then
    .failure (if jsTruthy resp.bodyErrorMessage then jsStr resp.bodyErrorMessage
              else "Conflict: Resource already exists")
  else if resp.status == 429 then
    if h : MAX_RETRIES ≤ retryCount then .failure "Rate limit exceeded"
    else callWithErrorHandling server (retryCount + 1)
  else if resp.status == 500 || resp.status == 502 || resp.status == 503 || resp.status == 504 then
    if h : retryCount < MAX_RETRIES then callWithErrorHandling server (retryCount + 1)
    else .failure ("Server error: " ++ toString resp.status)
  else if resp.status == 200 || resp.status == 201 || resp.status == 202 || resp.status == 204 then
    .success resp.status
  else if !(responseOk resp) then
    .failure (if jsTruthy resp.bodyErrorMessage then jsStr resp.bodyErrorMessage
              else "Request failed (" ++ toString resp.status ++ ")")
  else .success resp.status
termination_by MAX_RETRIES + 1 - retryCount
decreasing_by
  · simp only [MAX_RETRIES] at h ⊢
    omega
  · simp only [MAX_RETRIES] at h ⊢
    omega

end ApiRetry

namespace ApiSimple

/-- Embeds `API.callWithErrorHandling` of src/js/api.js (lines 41-104), which has no
retry counter: on a 429 it sleeps and re-invokes itself from scratch. The
function is modelled with explicit fuel: `none` means the computation has not
terminated within `fuel` re-invocations, so an answer of `none` for every
fuel value is non-termination. `attempt` indexes the response stream. -/
def callWithErrorHandlingFuel (server : Nat → HttpResponse) :
    Nat → Nat → Option CallOutcome
  | _, 0 => none
  | attempt, fuel + 1 =>
    let resp := server attempt
    if resp.status == 401 then some (.failure "Authentication failed")
    else if resp.status == 403 then some (.failure "Permission denied")
    else if resp.status == 429 then callWithErrorHandlingFuel server (attempt + 1) fuel
    else if resp.status == 500 || resp.status == 502 || resp.status == 503 || resp.status == 504 then
      some (.failure ("Server error: " ++ toString resp.status))
    else if resp.status == 200 || resp.status == 201 || resp.status == 202 || resp.status == 204 then
      some (.success resp.status)
    else if !(responseOk resp) then
      some (.failure ("HTTP " ++ toString resp.status))
    else some (.success resp.status)

end ApiSimple

/-! ## Bulk Operation Engine (src/unnamed/part_000 lines 221-352; the
src/js/api.js version, lines 112-213, has the same batching core) -/

/-- The response object a per-item call settles with. -/
structure BulkResp where
  ok : Bool
  status : Nat
  statusText : Option String
  deriving DecidableEq, Repr

/-- One `Promise.allSettled` slot: fulfilled with a (possibly null) response,
or rejected with a (possibly absent) reason message. -/
inductive SettledResult where
  | fulfilled (value : Option BulkResp)
  | rejected (reason : Option String)
  deriving DecidableEq, Repr

/-- Computes the success test of part_000 line 302: the slot is fulfilled,
its value is non-null and `value.ok` holds. -/
def isBulkSuccess : SettledResult → Bool
  | .fulfilled (some r) => r.ok
  | _ => false

/-- The error message recorded for a failed slot (part_000 lines 307-313). -/
def bulkErrorMsg : SettledResult → String
  | .fulfilled (some r) =>
    (if jsTruthy r.statusText then jsStr r.statusText else "HTTP " ++ toString r.status)
  | .fulfilled none => "Unknown error"
  | .rejected m => if jsTruthy m then jsStr m else "Request failed"

/-- The counters and trace accumulated by the batch loop: success and failure
counts, per-item error messages, the size of each executed batch, and how
many inter-batch `Utils.sleep(CONFIG.RATE_LIMIT_DELAY)` pauses ran. -/
structure BatchTrace where
  successCount : Nat
  failureCount : Nat
  errors : List String
  batchSizes : List Nat
  sleepCount : Nat
  deriving DecidableEq, Repr

/-- The batch loop of `executeBulkOperation` (part_000 lines 287-321):
`for (let i = 0; i < total; i += CONFIG.BATCH_SIZE)` — each iteration takes
one `BATCH_SIZE`-slice, fires all its calls, tallies the settled results, and
sleeps `RATE_LIMIT_DELAY` only if more payloads remain. -/
def processBatches {π : Type} (makeCall : π → SettledResult) (ps : List π) : BatchTrace :=
  if h : ps.length = 0 then ⟨0, 0, [], [], 0⟩
  else
    let batch := ps.take BATCH_SIZE
    let rest := ps.drop BATCH_SIZE
    let results := batch.map makeCall
    let s := (results.filter isBulkSuccess).length
    let f := batch.length - s
    let errs := (results.filter (fun r => !(isBulkSuccess r))).map bulkErrorMsg
    let t := processBatches makeCall rest
    ⟨s + t.successCount, f + t.failureCount, errs ++ t.errors,
      batch.length :: t.batchSizes, (if rest.length == 0 then 0 else 1) + t.sleepCount⟩
termination_by ps.length
decreasing_by
  simp only [List.length_drop, BATCH_SIZE]
  omega

/-- The configuration record of `executeBulkOperation`, with the interactive
ingredients replaced by their results: `permissionCheck` is `some b` when a
predicate was supplied and returned `b`; `confirmResponse` is `some b` when a
`confirmMessage` was supplied and the user answered `b`. -/
structure BulkConfig (ι π : Type) where
  items : List ι
  permissionCheck : Option Bool
  confirmResponse : Option Bool
  buildPayload : ι → Option π

/-- How `executeBulkOperation` ends: one of the up-front rejections (each
leaves `operationInProgress` untouched), or completion with the batch trace
(the `finally` block then clears `operationInProgress`). -/
inductive BulkOutcome where
  | blockedPermission
  | blockedEmpty
  | blockedCancelled
  | blockedBusy
  | completed (trace : BatchTrace)
  deriving DecidableEq, Repr

/-- Embeds `API.executeBulkOperation` (part_000 lines 221-352): precondition checks
in source order (permission, empty collection, confirmation, operation in
progress), then payload building — an item whose `buildPayload` is falsy is
silently skipped (line 278) — then the batch loop. -/
def executeBulkOperation {ι π : Type} (cfg : BulkConfig ι π)
    (makeCall : π → SettledResult) (operationInProgress : Bool) : BulkOutcome :=
  if cfg.permissionCheck == some false then .blockedPermission
  else if cfg.items.length == 0 then .blockedEmpty
  else if cfg.confirmResponse == some false then .blockedCancelled
  else if operationInProgress then .blockedBusy
  else .completed (processBatches makeCall (cfg.items.filterMap cfg.buildPayload))

/-! ## Watchdog timer around a bulk operation (src/unnamed/part_000
lines 258-269 and 346-351) -/

/-- The operation flag together with the one-shot watchdog timer armed by
`executeBulkOperation`, and a count of the warnings the watchdog surfaced. -/
structure OpState where
  operationInProgress : Bool
  watchdogArmed : Bool
  warningCount : Nat
  deriving DecidableEq, Repr

/-- Entering the guarded section (part_000 lines 258-269): the flag is set
and `setTimeout` arms the watchdog for 5 minutes. -/
def bulkOperationStart (st : OpState) : OpState :=
  { st with operationInProgress := true, watchdogArmed := true }

/-- The watchdog callback firing (part_000 lines 263-269): a `setTimeout`
callback runs at most once, so firing disarms the timer; if the flag is
still set it is force-cleared and a warning is surfaced. -/
def watchdogFire (st : OpState) : OpState :=
  if st.watchdogArmed then
    let st1 := { st with watchdogArmed := false }
    if st1.operationInProgress then
      { st1 with operationInProgress := false, warningCount := st1.warningCount + 1 }
    else st1
  else st

/-- The `finally` block (part_000 lines 346-351): `clearTimeout(watchdogTimer)`
disarms the watchdog, then the flag is cleared. -/
def bulkOperationFinish (st : OpState) : OpState :=
  { st with watchdogArmed := false, operationInProgress := false }

/-! ## Concrete states used by counterexamples and witnesses -/

/-- A workspace `W` whose cached entry expires exactly at time 100. -/
def c1State : CacheState := ⟨[("W", [])], [("W", 100)], [], []⟩

def aliceUser : MembershipUser := ⟨"alice@x.com", "Alice", "alice@x.com", "Viewer", "User"⟩

/-- A workspace `W` with one cached record and an entry deadline of 50. -/
def c5State : CacheState := ⟨[("W", [aliceUser])], [("W", 50)], [], []⟩

def bobInput : UserInput := ⟨some "bob@x.com", some "Bob", some "bob@x.com", some "User"⟩

/-- A state whose DirtySet holds exactly `W1`. -/
def c4State : CacheState := ⟨[], [], ["W1"], []⟩

/-- The empty cache state. -/
def emptyCacheState : CacheState := ⟨[], [], [], []⟩

/-! ## Claim C1 -/

/-- Claim C1, counterexample: at `now = 100` the entry of `W` in `c1State` has
`expiresAt = 100 ≤ now`, yet the code-level read `cacheHit` is a hit
(`isCacheExpired` uses strict `expiry < now`), while the spec-level hit
condition `specCacheHit` (presence and `expiresAt > now`) calls it a miss. So
the claimed equivalence is false at this input. -/
theorem cacheHit_boundary_counterexample :
    cacheHit c1State 100 "W" = true ∧ specCacheHit c1State 100 "W" = false := by
  constructor <;> rfl

/-- Claim C1 as amended: a cache read is a hit if and only if the entry is
present and its TTL entry is a nonzero deadline with `now ≤ expiresAt`; in
particular `expiresAt = now` is still a hit, and only `expiresAt < now`
(or a missing or zero deadline) is a miss. -/
theorem cacheHit_iff_present_and_unexpired (st : CacheState) (now : Nat) (ws : String) :
    cacheHit st now ws = true ↔
      ((lookupA st.workspaceUserMap ws).isSome = true ∧
        ∃ e, lookupA st.workspaceCacheTTL ws = some e ∧ e ≠ 0 ∧ now ≤ e) := by
  unfold cacheHit cacheRead isCacheExpired
  cases hu : lookupA st.workspaceUserMap ws with
  | none => simp
  | some users =>
    cases ht : lookupA st.workspaceCacheTTL ws with
    | none => simp
    | some e =>
      by_cases h0 : e = 0
      · simp [h0]
      · by_cases hlt : e < now
        · simp only [h0, hlt]
          simp
          omega
        · simp only [h0, hlt]
          simp
          omega

/-! ## Claim C5 -/

/-- Claim C5, counterexample: in `c5State` workspace `W` has
`expiresAt = 50`; at `now = 80` every optimistic mutation rewrites the
deadline to `now + CACHE_TTL = 300080`, so the claim that optimistic writes
leave `expiresAt` unchanged is false. -/
theorem optimistic_ttl_counterexample :
    lookupA c5State.workspaceCacheTTL "W" = some 50 ∧
    lookupA (optimisticAddUser c5State 80 "W" bobInput "Viewer").workspaceCacheTTL "W"
      = some 300080 ∧
    lookupA (optimisticRemoveUser c5State 80 "W" "alice@x.com").workspaceCacheTTL "W"
      = some 300080 ∧
    lookupA (optimisticChangeRole c5State 80 "W" "alice@x.com" "Admin").workspaceCacheTTL "W"
      = some 300080 := by
  refine ⟨rfl, rfl, rfl, ?_⟩
  rfl

/-- Claim C5 as amended: every optimistic mutation goes through
`setCacheWithTTL` and therefore resets the entry deadline to
`now + CACHE_TTL` — the optimistic write restarts the TTL clock exactly as a
real fetch does (`optimisticChangeRole` does so whenever the target record is
found). -/
theorem optimistic_mutations_reset_ttl (st : CacheState) (now : Nat) (ws : String)
    (u : UserInput) (role ident newRole : String) :
    lookupA (optimisticAddUser st now ws u role).workspaceCacheTTL ws = some (now + CACHE_TTL) ∧
    lookupA (optimisticRemoveUser st now ws ident).workspaceCacheTTL ws = some (now + CACHE_TTL) ∧
    (((((lookupA st.workspaceUserMap ws).getD []).find?
        (fun x => x.identifier == ident)).isSome = true) →
      lookupA (optimisticChangeRole st now ws ident newRole).workspaceCacheTTL ws
        = some (now + CACHE_TTL)) := by
  refine ⟨?_, ?_, ?_⟩
  · simp [optimisticAddUser, setCacheWithTTL, lookupA_insertA_self]
  · simp [optimisticRemoveUser, setCacheWithTTL, lookupA_insertA_self]
  · intro h
    simp [optimisticChangeRole, h, setCacheWithTTL, lookupA_insertA_self]

/-- Witness for the amended claim C5 at a concrete input (the role-change arm,
which carries the found-record hypothesis). -/
theorem optimistic_mutations_reset_ttl_witness :
    lookupA (optimisticChangeRole c5State 80 "W" "alice@x.com" "Admin").workspaceCacheTTL "W"
      = some (80 + CACHE_TTL) :=
  (optimistic_mutations_reset_ttl c5State 80 "W" bobInput "Viewer" "alice@x.com" "Admin").2.2
    (by rfl)

/-! ## Claim C10 -/

/-- Claim C10: on a workspace with no cache entry, `optimisticRemoveUser`
creates an entry with an empty record list and a fresh `now + CACHE_TTL`
deadline, `optimisticAddUser` creates an entry holding only the new record
with a fresh deadline, and in both cases an immediately following read is a
hit on data never fetched from the remote system. -/
theorem optimistic_creates_entry_on_missing (st : CacheState) (now : Nat) (ws : String)
    (u : UserInput) (role ident : String)
    (h : lookupA st.workspaceUserMap ws = none) :
    lookupA (optimisticRemoveUser st now ws ident).workspaceUserMap ws = some [] ∧
    lookupA (optimisticRemoveUser st now ws ident).workspaceCacheTTL ws = some (now + CACHE_TTL) ∧
    cacheHit (optimisticRemoveUser st now ws ident) now ws = true ∧
    lookupA (optimisticAddUser st now ws u role).workspaceUserMap ws
      = some [mkOptimisticUser u role] ∧
    lookupA (optimisticAddUser st now ws u role).workspaceCacheTTL ws = some (now + CACHE_TTL) ∧
    cacheHit (optimisticAddUser st now ws u role) now ws = true := by
  have hrm_u : lookupA (optimisticRemoveUser st now ws ident).workspaceUserMap ws = some [] := by
    simp [optimisticRemoveUser, h, setCacheWithTTL, lookupA_insertA_self]
  have hrm_t : lookupA (optimisticRemoveUser st now ws ident).workspaceCacheTTL ws
      = some (now + CACHE_TTL) := by
    simp [optimisticRemoveUser, setCacheWithTTL, lookupA_insertA_self]
  have had_u : lookupA (optimisticAddUser st now ws u role).workspaceUserMap ws
      = some [mkOptimisticUser u role] := by
    simp [optimisticAddUser, h, setCacheWithTTL, lookupA_insertA_self]
  have had_t : lookupA (optimisticAddUser st now ws u role).workspaceCacheTTL ws
      = some (now + CACHE_TTL) := by
    simp [optimisticAddUser, setCacheWithTTL, lookupA_insertA_self]
  have httl : now + CACHE_TTL ≠ 0 ∧ ¬(now + CACHE_TTL < now) := by
    unfold CACHE_TTL
    omega
  refine ⟨hrm_u, hrm_t, ?_, had_u, had_t, ?_⟩
  · simp [cacheHit, cacheRead, isCacheExpired, hrm_u, hrm_t, httl.1, httl.2]
  · simp [cacheHit, cacheRead, isCacheExpired, had_u, had_t, httl.1, httl.2]

/-- Witness for claim C10 at a concrete input: the empty cache state has no
entry for `W`, and both optimistic creations make the subsequent read a hit. -/
theorem optimistic_creates_entry_witness :
    lookupA (optimisticRemoveUser emptyCacheState 0 "W" "alice@x.com").workspaceUserMap "W"
      = some [] ∧
    lookupA (optimisticRemoveUser emptyCacheState 0 "W" "alice@x.com").workspaceCacheTTL "W"
      = some (0 + CACHE_TTL) ∧
    cacheHit (optimisticRemoveUser emptyCacheState 0 "W" "alice@x.com") 0 "W" = true ∧
    lookupA (optimisticAddUser emptyCacheState 0 "W" bobInput "Viewer").workspaceUserMap "W"
      = some [mkOptimisticUser bobInput "Viewer"] ∧
    lookupA (optimisticAddUser emptyCacheState 0 "W" bobInput "Viewer").workspaceCacheTTL "W"
      = some (0 + CACHE_TTL) ∧
    cacheHit (optimisticAddUser emptyCacheState 0 "W" bobInput "Viewer") 0 "W" = true :=
  optimistic_creates_entry_on_missing emptyCacheState 0 "W" bobInput "Viewer" "alice@x.com" rfl

/-! ## Claim C4 -/

/-- Claim C4, counterexample: with `W1` dirty and the reconciliation fetch
failing (`fun w => none`), the flush still drains `W1` (one fetch is issued
for it) but does not re-insert it: the DirtySet afterwards is empty, so the
failed workspace is lost rather than retried. -/
theorem failed_refresh_not_reinserted_counterexample :
    (refreshDirtyWorkspaces (fun _ => none) c4State 0).2 = ["W1"] ∧
    ((refreshDirtyWorkspaces (fun _ => none) c4State 0).1).dirtyWorkspaces = [] := by
  constructor <;> rfl

theorem refreshSingleWorkspace_dirty (fetch : String → Option (List MembershipUser))
    (st : CacheState) (now : Nat) (ws : String) :
    (refreshSingleWorkspace fetch st now ws).dirtyWorkspaces = st.dirtyWorkspaces := by
  unfold refreshSingleWorkspace
  cases fetch ws <;> simp [setCacheWithTTL]

theorem foldl_refresh_preserves_dirty (fetch : String → Option (List MembershipUser))
    (now : Nat) (l : List String) :
    ∀ acc : CacheState,
      (l.foldl (fun a w => refreshSingleWorkspace fetch a now w) acc).dirtyWorkspaces
        = acc.dirtyWorkspaces := by
  induction l with
  | nil => intro acc; rfl
  | cons w t ih =>
    intro acc
    rw [List.foldl_cons, ih, refreshSingleWorkspace_dirty]

/-- Claim C4 as amended: a reconciler flush drains the whole DirtySet up
front and never re-inserts a drained workspace — whatever the per-workspace
fetches do (success, non-ok response or thrown error, the latter two being
only logged), the DirtySet is empty after the flush, so a failed workspace is
not retried until something marks it dirty again. -/
theorem refreshDirtyWorkspaces_empties_dirty (fetch : String → Option (List MembershipUser))
    (st : CacheState) (now : Nat) :
    ((refreshDirtyWorkspaces fetch st now).1).dirtyWorkspaces = [] := by
  unfold refreshDirtyWorkspaces
  by_cases h : st.dirtyWorkspaces.length == 0
  · simp only [h, if_pos]
    simpa using List.eq_nil_of_length_eq_zero (by simpa using h)
  · simp only [h, if_neg, Bool.false_eq_true, not_false_iff]
    exact foldl_refresh_preserves_dirty fetch now st.dirtyWorkspaces _

/-! ## Claim C7 -/

/-- Applies `markDirty(W)` a number `n` of times in a row (cache.js lines 80-82). -/
def markDirtyN (st : CacheState) (ws : String) : Nat → CacheState
  | 0 => st
  | n + 1 => markWorkspaceDirty (markDirtyN st ws n) ws

theorem contains_iff_mem_str (l : List String) (a : String) :
    l.contains a = true ↔ a ∈ l := by
  simp [List.contains, List.elem_iff]

theorem markWorkspaceDirty_count_one (st : CacheState) (ws : String)
    (h : st.dirtyWorkspaces.count ws ≤ 1) :
    (markWorkspaceDirty st ws).dirtyWorkspaces.count ws = 1 := by
  unfold markWorkspaceDirty
  by_cases hc : st.dirtyWorkspaces.contains ws = true
  · have hmem : ws ∈ st.dirtyWorkspaces := (contains_iff_mem_str _ _).mp hc
    have hpos : 0 < st.dirtyWorkspaces.count ws := List.count_pos_iff.mpr hmem
    simp only [hc, if_pos]
    omega
  · have hmem : ws ∉ st.dirtyWorkspaces := fun hm =>
      hc ((contains_iff_mem_str _ _).mpr hm)
    have hz : st.dirtyWorkspaces.count ws = 0 := List.count_eq_zero.mpr hmem
    simp [hmem, List.count_append, hz]

theorem markDirtyN_count_one (st : CacheState) (ws : String) (n : Nat) (hn : 1 ≤ n)
    (h : st.dirtyWorkspaces.count ws ≤ 1) :
    (markDirtyN st ws n).dirtyWorkspaces.count ws = 1 := by
  induction n with
  | zero => omega
  | succ k ih =>
    by_cases hk : k = 0
    · subst hk
      exact markWorkspaceDirty_count_one st ws h
    · have hk1 : 1 ≤ k := by omega
      have := ih hk1
      exact markWorkspaceDirty_count_one (markDirtyN st ws k) ws (by omega)

/-- Claim C7: marking a workspace dirty `n ≥ 1` times and then running one
debounce flush issues exactly one reconciliation fetch for it — the DirtySet
insert is idempotent and the flush drains each member once. (The hypothesis
`count ≤ 1` says the starting DirtySet is a set, which every reachable state
satisfies since `markWorkspaceDirty` is its only writer.) -/
theorem markDirty_then_flush_one_fetch (fetch : String → Option (List MembershipUser))
    (st : CacheState) (now : Nat) (ws : String) (n : Nat) (hn : 1 ≤ n)
    (h : st.dirtyWorkspaces.count ws ≤ 1) :
    (refreshDirtyWorkspaces fetch (markDirtyN st ws n) now).2.count ws = 1 := by
  have hc := markDirtyN_count_one st ws n hn h
  have hmem : ws ∈ (markDirtyN st ws n).dirtyWorkspaces :=
    List.count_pos_iff.mp (by omega)
  have hlen : ((markDirtyN st ws n).dirtyWorkspaces.length == 0) = false := by
    have hpos : 0 < (markDirtyN st ws n).dirtyWorkspaces.length :=
      List.length_pos.mpr (List.ne_nil_of_mem hmem)
    simp only [beq_eq_false_iff_ne, ne_eq]
    omega
  unfold refreshDirtyWorkspaces
  simp only [hlen, Bool.false_eq_true, if_neg, not_false_iff]
  exact hc

/-- Witness for claim C7: marking `W` once on the empty state and flushing
issues exactly one fetch for `W`. -/
theorem markDirty_then_flush_one_fetch_witness :
    (refreshDirtyWorkspaces (fun _ => none) (markDirtyN emptyCacheState "W" 1) 0).2.count "W"
      = 1 :=
  markDirty_then_flush_one_fetch (fun _ => none) emptyCacheState 0 "W" 1 (by omega) (by decide)

/-! ## Claim C3 -/

/-- Claim C3: a guarded action invoked while `operationInProgress = true`
never executes the wrapped action and leaves the whole state — in particular
`operationInProgress` — unchanged; the guard returns a blocked result before
reaching the action (the frozen check may block first, but that branch also
executes nothing and changes nothing). -/
theorem guard_blocks_when_operation_in_progress (st : GuardState) (opts : GuardOptions)
    (action : GuardState → GuardState × Option String)
    (h : st.operationInProgress = true) :
    (guard st opts action).1 = st ∧ (guard st opts action).2.2 = false := by
  by_cases hf : st.frozen <;> simp [guard, h, hf]

/-- A not-frozen state with an operation in flight, used as the C3 witness input. -/
def busyGuardState : GuardState :=
  ⟨false, true, some "token", none, some "W", false, ["W"], "workspace"⟩

/-- Witness for claim C3 at a concrete input: the guard leaves the busy state
untouched and does not run the action. -/
theorem guard_blocks_when_operation_in_progress_witness :
    (guard busyGuardState ⟨true, false, false⟩ (fun s => (s, none))).1 = busyGuardState ∧
    (guard busyGuardState ⟨true, false, false⟩ (fun s => (s, none))).2.2 = false :=
  guard_blocks_when_operation_in_progress busyGuardState ⟨true, false, false⟩
    (fun s => (s, none)) rfl

/-! ## Claim C8 -/

/-- Claim C8: after a bulk operation arms the watchdog, a watchdog tick with
the operation still in flight force-resets `operationInProgress` to false and
surfaces exactly one warning; a second tick is a no-op (the one-shot timer is
already disarmed), and completing the operation first disarms the watchdog so
a later tick neither fires nor warns. -/
theorem watchdog_force_reset_exactly_once (st : OpState) :
    (watchdogFire (bulkOperationStart st)).operationInProgress = false ∧
    (watchdogFire (bulkOperationStart st)).warningCount = st.warningCount + 1 ∧
    watchdogFire (watchdogFire (bulkOperationStart st)) = watchdogFire (bulkOperationStart st) ∧
    (bulkOperationFinish (bulkOperationStart st)).watchdogArmed = false ∧
    watchdogFire (bulkOperationFinish (bulkOperationStart st))
      = bulkOperationFinish (bulkOperationStart st) := by
  simp [bulkOperationStart, watchdogFire, bulkOperationFinish]

/-! ## Claim C9 -/

/-- A 429 response object carrying a `Retry-After` header with the given value. -/
def rateLimitedInput (h : String) : ErrInput :=
  .objErr ⟨none, none, some 429, none, [("Retry-After", h)]⟩

/-- Claim C9, counterexample: the classification result for a 429 with
`Retry-After: 5` is byte-for-byte the same as for `Retry-After: 99` — the
classifier never reads the header — and its four fields (type, message,
retryable, action) are a fixed record carrying no 5-second wait, so the claim
that the suggested wait in the classification result equals the Retry-After
value is false. -/
theorem mapError_ignores_retry_after :
    mapError true (rateLimitedInput "5") = mapError true (rateLimitedInput "99") ∧
    mapError true (rateLimitedInput "5") =
      ⟨"rate_limit", "Too many requests. Please wait a moment and try again.", true,
        some "wait"⟩ := by
  constructor <;> rfl

/-- Claim C9 as amended: for any 429 response object the classifier returns
kind `rate_limit` with `retryable = true` and suggested action `wait`,
independent of the `Retry-After` header, and reports no numeric wait; the
`Retry-After` value is honored not in the classification result but by the
retry path of `callWithErrorHandling` (part_000 line 157), whose computed
wait `retryAfterSeconds` equals 5 seconds for `Retry-After: 5` at every
retry count. -/
theorem mapError_rate_limit_and_retry_path (headers : List (String × String))
    (retryCount : Nat) :
    mapError true (.objErr ⟨none, none, some 429, none, headers⟩) =
      ⟨"rate_limit", "Too many requests. Please wait a moment and try again.", true,
        some "wait"⟩ ∧
    retryAfterSeconds (some 5) retryCount = 5 := by
  constructor
  · rfl
  · rfl

/-! ## Claim C6 -/

/-- A server that answers HTTP 429 (with `Retry-After: 5`) to every request. -/
def always429 : HttpResponse := ⟨429, some 5, none⟩

theorem apiSimple_always429_never_terminates (attempt fuel : Nat) :
    ApiSimple.callWithErrorHandlingFuel (fun _ => always429) attempt fuel = none := by
  induction fuel generalizing attempt with
  | zero => rfl
  | succ n ih => simpa [ApiSimple.callWithErrorHandlingFuel, always429] using ih (attempt + 1)

/-- Claim C6: against a server that always answers 429, the
`callWithErrorHandling` of src/js/api.js never terminates — for every fuel
bound the fuel-indexed model is still running, because the recursive
re-invocation carries no retry counter (its own comment says `Retry once`);
the part_000 version is bounded and terminates with the error
`Rate limit exceeded` after `MAX_RETRIES = 3` automatic retries. -/
theorem rate_limit_retry_bounded_vs_unbounded :
    (∀ fuel : Nat,
      ApiSimple.callWithErrorHandlingFuel (fun _ => always429) 0 fuel = none) ∧
    ApiRetry.callWithErrorHandling (fun _ => always429) 0 = .failure "Rate limit exceeded" := by
  constructor
  · intro fuel
    exact apiSimple_always429_never_terminates 0 fuel
  · rw [ApiRetry.callWithErrorHandling]
    rw [ApiRetry.callWithErrorHandling]
    rw [ApiRetry.callWithErrorHandling]
    rw [ApiRetry.callWithErrorHandling]
    rfl

/-! ## Claim C2 -/

theorem filterMap_length_all_some {ι π : Type} (f : ι → Option π) (l : List ι)
    (h : ∀ i ∈ l, (f i).isSome = true) : (l.filterMap f).length = l.length := by
  induction l with
  | nil => rfl
  | cons a t ih =>
    obtain ⟨b, hb⟩ := Option.isSome_iff_exists.mp (h a (by simp))
    simp only [List.filterMap_cons, hb, List.length_cons]
    rw [ih (fun i hi => h i (by simp [hi]))]

theorem processBatches_eq_zero {π : Type} (mc : π → SettledResult) (ps : List π)
    (h : ps.length = 0) : processBatches mc ps = ⟨0, 0, [], [], 0⟩ := by
  rw [processBatches]
  simp [h]

theorem processBatches_eq_pos {π : Type} (mc : π → SettledResult) (ps : List π)
    (h : ¬ ps.length = 0) :
    processBatches mc ps =
      ⟨(((ps.take BATCH_SIZE).map mc).filter isBulkSuccess).length
          + (processBatches mc (ps.drop BATCH_SIZE)).successCount,
        (ps.take BATCH_SIZE).length
          - (((ps.take BATCH_SIZE).map mc).filter isBulkSuccess).length
          + (processBatches mc (ps.drop BATCH_SIZE)).failureCount,
        (((ps.take BATCH_SIZE).map mc).filter (fun r => !(isBulkSuccess r))).map bulkErrorMsg
          ++ (processBatches mc (ps.drop BATCH_SIZE)).errors,
        (ps.take BATCH_SIZE).length :: (processBatches mc (ps.drop BATCH_SIZE)).batchSizes,
        (if (ps.drop BATCH_SIZE).length == 0 then 0 else 1)
          + (processBatches mc (ps.drop BATCH_SIZE)).sleepCount⟩ := by
  conv_lhs => rw [processBatches]
  simp [h]

theorem processBatches_total {π : Type} (mc : π → SettledResult) (ps : List π) :
    (processBatches mc ps).successCount + (processBatches mc ps).failureCount = ps.length := by
  suffices H : ∀ (N : Nat) (qs : List π), qs.length ≤ N →
      (processBatches mc qs).successCount + (processBatches mc qs).failureCount
        = qs.length from H ps.length ps le_rfl
  intro N
  induction N with
  | zero =>
    intro qs hle
    have hz : qs.length = 0 := by omega
    simp [processBatches_eq_zero mc qs hz, hz]
  | succ N ihN =>
    intro qs hle
    by_cases h : qs.length = 0
    · simp [processBatches_eq_zero mc qs h, h]
    · rw [processBatches_eq_pos mc qs h]
      have hrest : (qs.drop BATCH_SIZE).length ≤ N := by
        simp only [List.length_drop, BATCH_SIZE]
        omega
      have ih := ihN (qs.drop BATCH_SIZE) hrest
      have hfil : (((qs.take BATCH_SIZE).map mc).filter isBulkSuccess).length
          ≤ (qs.take BATCH_SIZE).length := by
        calc (((qs.take BATCH_SIZE).map mc).filter isBulkSuccess).length
            ≤ ((qs.take BATCH_SIZE).map mc).length := List.length_filter_le _ _
          _ = (qs.take BATCH_SIZE).length := List.length_map _ _
      have htake : (qs.take BATCH_SIZE).length = min BATCH_SIZE qs.length :=
        List.length_take _ _
      have hdrop : (qs.drop BATCH_SIZE).length = qs.length - BATCH_SIZE :=
        List.length_drop _ _
      dsimp only
      simp only [BATCH_SIZE] at htake hdrop ih hfil ⊢
      omega

theorem processBatches_sizes_37 {π : Type} (mc : π → SettledResult) (ps : List π)
    (h : ps.length = 37) :
    (processBatches mc ps).batchSizes = [15, 15, 7] ∧
    (processBatches mc ps).sleepCount = 2 := by
  have h1 : ¬ ps.length = 0 := by omega
  have hd1 : (ps.drop BATCH_SIZE).length = 22 := by
    simp [List.length_drop, BATCH_SIZE, h]
  have h2 : ¬ (ps.drop BATCH_SIZE).length = 0 := by omega
  have hd2 : ((ps.drop BATCH_SIZE).drop BATCH_SIZE).length = 7 := by
    simp [List.length_drop, BATCH_SIZE, h]
  have h3 : ¬ ((ps.drop BATCH_SIZE).drop BATCH_SIZE).length = 0 := by omega
  have hd3 : (((ps.drop BATCH_SIZE).drop BATCH_SIZE).drop BATCH_SIZE).length = 0 := by
    simp [List.length_drop, BATCH_SIZE, h]
  have ht1 : (ps.take BATCH_SIZE).length = 15 := by
    simp [List.length_take, BATCH_SIZE, h]
  have ht2 : ((ps.drop BATCH_SIZE).take BATCH_SIZE).length = 15 := by
    simp [List.length_take, List.length_drop, BATCH_SIZE, h]
  have ht3 : (((ps.drop BATCH_SIZE).drop BATCH_SIZE).take BATCH_SIZE).length = 7 := by
    simp [List.length_take, List.length_drop, BATCH_SIZE, h]
  rw [processBatches_eq_pos mc ps h1, processBatches_eq_pos mc _ h2,
    processBatches_eq_pos mc _ h3, processBatches_eq_zero mc _ hd3]
  refine ⟨?_, ?_⟩ <;> dsimp only
  · rw [ht1, ht2, ht3]
  · rw [hd1, hd2, hd3]
    rfl

/-- Claim C2: for a 37-item collection whose payload builder is truthy on
every item, with the engine neither blocked by the permission check nor by a
declined confirmation nor by an operation in flight, `executeBulkOperation`
runs exactly 3 batches of sizes 15, 15 and 7 (`CONFIG.BATCH_SIZE = 15`),
performs exactly 2 inter-batch sleeps (never one after the last batch), and
tallies `successCount + failureCount = 37` for every combination of per-item
outcomes — including the one where every call fails. -/
theorem executeBulkOperation_37_batches {ι π : Type} (cfg : BulkConfig ι π)
    (mc : π → SettledResult)
    (hlen : cfg.items.length = 37)
    (hpay : ∀ i ∈ cfg.items, (cfg.buildPayload i).isSome = true)
    (hperm : cfg.permissionCheck ≠ some false)
    (hconf : cfg.confirmResponse ≠ some false) :
    ∃ t, executeBulkOperation cfg mc false = .completed t ∧
      t.batchSizes = [15, 15, 7] ∧ t.sleepCount = 2 ∧
      t.successCount + t.failureCount = 37 := by
  have hplen : (cfg.items.filterMap cfg.buildPayload).length = 37 := by
    rw [filterMap_length_all_some _ _ hpay, hlen]
  refine ⟨processBatches mc (cfg.items.filterMap cfg.buildPayload), ?_, ?_, ?_, ?_⟩
  · unfold executeBulkOperation
    simp [hperm, hconf, hlen]
  · exact (processBatches_sizes_37 mc _ hplen).1
  · exact (processBatches_sizes_37 mc _ hplen).2
  · rw [processBatches_total, hplen]

/-- The 37-item configuration used as the C2 witness input. -/
def bulkConfig37 : BulkConfig Nat Nat :=
  ⟨List.range 37, some true, none, fun n => some n⟩

/-- A per-item call that always fails (a rejected promise). -/
def alwaysFailCall : Nat → SettledResult := fun _ => .rejected (some "Network error")

/-- Witness for claim C2 at a concrete input where every per-item call fails. -/
theorem executeBulkOperation_37_batches_witness :
    ∃ t, executeBulkOperation bulkConfig37 alwaysFailCall false = .completed t ∧
      t.batchSizes = [15, 15, 7] ∧ t.sleepCount = 2 ∧
      t.successCount + t.failureCount = 37 :=
  executeBulkOperation_37_batches bulkConfig37 alwaysFailCall (by decide)
    (fun i _ => rfl) (by decide) (by decide)

end PowerBIManager
